import Mathlib

/-!
Verification development for the ACR webhook → MeoW notifier (src/app.py).

The development shallowly embeds the event-to-action pipeline of `app.py`:

* Python values that flow out of `json.loads` are modelled by `PyVal`;
  Python `dict.get`, truthiness, `or`, `str.strip`, `str.split("/")[-1]` and
  `str.lower` are embedded as functions on `PyVal`/`String`.  An attribute
  access that Python would fault on (e.g. `.get` on a non-dict) is modelled
  by `Except.error`.
* The container runtime (docker SDK) is an external collaborator; each call
  the code makes is modelled by an oracle field in `RuntimeBehavior`
  (`none` = the call returns normally, `some e` = the call raises an
  `APIError` whose explanation/str is `e`).  `fromEnvError` models
  `docker.from_env()` raising.
* `docker_login_pull_tag_remove` mirrors the function of the same name
  (src/app.py lines 76-150).  It returns the Python result dict (modelled by
  `SyncOutput`, whose optional fields mirror the keys that may be absent)
  paired with the list of runtime calls actually issued, and `Except.error`
  models an exception escaping the function.
* `acr_payload` mirrors the webhook handler (src/app.py lines 202-274);
  `HandlerFault.httpEx` models `raise HTTPException`, `HandlerFault.pyExc`
  models any other exception escaping the handler (surfacing as HTTP 500).
-/

/-- A Python value as produced by `json.loads` (plus `None`). -/
inductive PyVal where
  | pyStr (s : String)
  | pyInt (n : Int)
  | pyBool (b : Bool)
  | pyNone
  | pyList (xs : List PyVal)
  | pyDict (entries : List (String × PyVal))
deriving Repr

/-- Python truthiness of a value (`if x:`). -/
def pyTruthy : PyVal → Bool
  | .pyStr s => s ≠ ""
  | .pyInt n => n ≠ 0
  | .pyBool b => b
  | .pyNone => false
  | .pyList xs => !xs.isEmpty
  | .pyDict es => !es.isEmpty

/-- Python `a or b` on arbitrary values. -/
def pyOrVal (a b : PyVal) : PyVal := if pyTruthy a then a else b

/-- Python `a or b` restricted to strings (falsy iff empty). -/
def pyOr (a b : String) : String := if a = "" then b else a

/-- Python `v == s` where `s` is a string literal: equality across types is
`False`. -/
def pyEqStr (v : PyVal) (s : String) : Bool :=
  match v with
  | .pyStr t => t = s
  | _ => false

/-- Python `str(v)`.  Only the string and int cases are relied on by
theorems; the remaining cases are best-effort renderings. -/
def pyStrOf : PyVal → String
  | .pyStr s => s
  | .pyInt n => toString n
  | .pyBool b => if b then "True" else "False"
  | .pyNone => "None"
  | .pyList _ => "[...]"
  | .pyDict _ => "\x7b...\x7d"

/-- Python `v.get(k, dflt)`: well-defined on dicts, an `AttributeError`
otherwise. -/
def pyGet (v : PyVal) (k : String) (dflt : PyVal) : Except String PyVal :=
  match v with
  | .pyDict es => .ok ((es.lookup k).getD dflt)
  | _ => .error "AttributeError: get"

/-- Python `v.get(k, dflt)` at a call site guarded by `isinstance(v, dict)`
(the non-dict case is unreachable at such sites). -/
def pyDictGet (v : PyVal) (k : String) (dflt : PyVal) : PyVal :=
  match v with
  | .pyDict es => (es.lookup k).getD dflt
  | _ => dflt

/-- Strip characters satisfying `p` from both ends of a string
(Python `str.strip`). -/
def stripChars (p : Char → Bool) (s : String) : String :=
  ⟨((s.data.dropWhile p).reverse.dropWhile p).reverse⟩

/-- Python `s.strip()` (whitespace). -/
def pyStrip (s : String) : String := stripChars Char.isWhitespace s

/-- Python `s.strip("/")`. -/
def stripSlashes (s : String) : String := stripChars (· = '/') s

/-- Python `s.lower()` (ASCII). -/
def pyLower (s : String) : String := ⟨s.data.map Char.toLower⟩

/-- Python `s.split(sep)` on a character list; the result is never empty. -/
def splitOnChar (sep : Char) : List Char → List (List Char)
  | [] => [[]]
  | c :: cs =>
    let r := splitOnChar sep cs
    if c = sep then [] :: r
    else
      match r with
      | [] => [[c]]
      | seg :: rest => (c :: seg) :: rest

/-- Python `s.split("/")[-1]`. -/
def lastSegment (s : String) : String :=
  ⟨(splitOnChar '/' s.data).getLastD []⟩

/-- Process configuration, read from environment variables at startup
(src/app.py lines 27-47).  `allowNamespace` and `localImageName` hold the
already-`strip()`ed values, as the module-level code applies `.strip()`. -/
structure Config where
  registry : String
  username : String
  password : String
  allowNamespace : String
  localImageName : String
  localTag : String
  webhookSecret : String
  defaultJumpUrl : String
  miaoNickname : String
deriving Repr

/-- The fixed ignored-tag sentinel `IGNORE_TAG` (src/app.py line 47). -/
def IGNORE_TAG : String := "__ACR_BUILD_SERVICE_INTERNAL_IMAGE_CACHE"

/-- `normalize_tag` (src/app.py lines 70-74). -/
def normalize_tag (tag : String) : String :=
  if tag ≠ "" ∧ pyLower tag = "lastest" then "latest"
  else if tag = "" then "latest" else tag

/-- Oracle describing how the docker runtime behaves on each call the code
can make.  `none` means the call returns normally; `some e` means it raises
an `APIError` whose explanation (resp. `str(e)`) is `e`.  `fromEnvError`
models `docker.from_env()` itself raising (src/app.py line 95 sits outside
every `try`).  `cleanupRmiError` is the outcome of the best-effort
`client.images.remove(remote)` issued when the tag step fails; the code
swallows it with `except Exception: pass`, so the field is never read. -/
structure RuntimeBehavior where
  fromEnvError : Option String
  loginError : Option String
  pullError : Option String
  pullId : String
  tagError : Option String
  cleanupRmiError : Option String
  rmiError : Option String
deriving Repr

/-- A runtime call issued by the sync engine, in issue order. -/
inductive RuntimeCall where
  | login (registry : String)
  | pull (ref : String)
  | tagImage (repository : String) (tag : String)
  | removeImage (ref : String)
deriving Repr, DecidableEq

/-- One entry of the Python `results["steps"]` list: a small string-keyed
dict such as `\x7b"login": "ok"\x7d`. -/
abbrev StepDict := List (String × String)

/-- The dict returned by `docker_login_pull_tag_remove`.  The Python dict
always carries `"steps"`; `"rc"`, `"remote"` and `"local"` are present only
on some paths, hence `Option`.  (`local` is a Lean keyword, so the `"local"`
key is named `localRef`.) -/
structure SyncOutput where
  steps : List StepDict
  rc : Option Int
  remote : Option String
  localRef : Option String
deriving Repr, DecidableEq

/-- The spec's `terminatedEarly` flag is not a key of the Python result
dict; a run terminated early exactly when the function returned before
line 148, i.e. when the `"remote"` key is absent. -/
def terminatedEarly (r : SyncOutput) : Bool := r.remote.isNone

/-- `docker_login_pull_tag_remove` (src/app.py lines 76-150).  Returns the
result dict (or `Except.error` when an exception escapes the Python
function) together with the list of runtime calls issued. -/
def docker_login_pull_tag_remove (cfg : Config) (b : RuntimeBehavior)
    (repo_full tag0 local_image_name : String) :
    Except String SyncOutput × List RuntimeCall :=
  let tag := normalize_tag tag0
  let local_image := pyStrip (pyOr local_image_name
    (pyOr cfg.localImageName (lastSegment repo_full)))
  if local_image = "" then
    (.ok { steps := [[("error", "local image name resolved empty")]],
           rc := some (-1), remote := none, localRef := none }, [])
  else
    let remote := cfg.registry ++ "/" ++ repo_full ++ ":" ++ tag
    let localTagged := local_image ++ ":" ++ cfg.localTag
    match b.fromEnvError with
    | some m => (.error m, [])
    | none =>
      -- step 1: login (skipped when either credential is missing)
      let credsMissing := cfg.username = "" ∨ cfg.password = ""
      let afterLogin : List StepDict → List RuntimeCall →
          Except String SyncOutput × List RuntimeCall :=
        fun steps0 calls0 =>
          -- step 2: pull
          match b.pullError with
          | some e =>
            (.ok { steps := steps0 ++ [[("pull", "failed: " ++ e)]],
                   rc := none, remote := none, localRef := none },
             calls0 ++ [.pull remote])
          | none =>
            let steps1 := steps0 ++ [[("pull", "ok"), ("id", b.pullId)]]
            let calls1 := calls0 ++ [RuntimeCall.pull remote]
            -- step 3: tag
            match b.tagError with
            | some e =>
              -- best-effort cleanup of the remote-named local image;
              -- its outcome (b.cleanupRmiError) is discarded by
              -- `except Exception: pass`, only the call is observable
              (.ok { steps := steps1 ++ [[("tag", "failed: " ++ e)]],
                     rc := none, remote := none, localRef := none },
               calls1 ++ [.tagImage local_image cfg.localTag,
                          .removeImage remote])
            | none =>
              let steps2 := steps1 ++ [[("tag", "ok"), ("local", localTagged)]]
              let calls2 := calls1 ++ [RuntimeCall.tagImage local_image cfg.localTag]
              -- step 4: rmi (failure recorded, does not halt)
              match b.rmiError with
              | some e =>
                (.ok { steps := steps2 ++ [[("rmi", "failed: " ++ e)]],
                       rc := none, remote := some remote,
                       localRef := some localTagged },
                 calls2 ++ [.removeImage remote])
              | none =>
                (.ok { steps := steps2 ++ [[("rmi", "ok")]],
                       rc := none, remote := some remote,
                       localRef := some localTagged },
                 calls2 ++ [.removeImage remote])
      if credsMissing then
        afterLogin [[("login", "skipped")]] []
      else
        match b.loginError with
        | some e =>
          (.ok { steps := [[("login", "failed: " ++ e)]],
                 rc := none, remote := none, localRef := none },
           [.login cfg.registry])
        | none =>
          afterLogin [[("login", "ok")]] [.login cfg.registry]

/-- The normalized push event extracted by the handler (src/app.py lines
214-229).  Fields keep the Python local-variable names (`namespace` is a
Lean keyword, hence `nameSpace`).  `rawFallback` records the `"raw"` key
the handler stores when the body is non-JSON (line 219): it is populated
exactly when the body was nonempty and `json.loads` raised. -/
structure PushEvent where
  repoFullName : PyVal
  nameSpace : String
  tag : PyVal
  digest : PyVal
  region : PyVal
  pushedAt : PyVal
  rawFallback : Option String
deriving Repr

/-- The JSON-parse-and-extract part of the handler (src/app.py lines
214-229).  `loads` is the oracle for `json.loads(raw_text)`: `Except.error`
means it raised.  The result is `Except.error` when a Python exception
(an `AttributeError` from `.get`/`.strip` on a wrong-typed value) would
escape. -/
def parseEvent (rawText : String) (loads : Except Unit PyVal) :
    Except String PushEvent :=
  let data : PyVal :=
    if rawText = "" then .pyDict []
    else
      match loads with
      | .ok v => v
      | .error _ => .pyDict [("raw", .pyStr rawText)]
  let push_data : PyVal :=
    match data with
    | .pyDict _ => pyDictGet data "push_data" (.pyDict [])
    | _ => .pyDict []
  let repo : PyVal :=
    match data with
    | .pyDict _ => pyDictGet data "repository" (.pyDict [])
    | _ => .pyDict []
  match pyGet push_data "tag" (.pyStr "") with
  | .error m => .error m
  | .ok tagRaw =>
    let tagv := pyOrVal tagRaw (.pyStr "latest")
    match pyGet push_data "digest" (.pyStr "") with
    | .error m => .error m
    | .ok digest =>
      match pyGet push_data "pushed_at" (.pyStr "") with
      | .error m => .error m
      | .ok pushed_at =>
        match pyGet repo "repo_full_name" .pyNone with
        | .error m => .error m
        | .ok rfn =>
          match pyGet repo "namespace" (.pyStr "") with
          | .error m => .error m
          | .ok nsv =>
            match pyGet repo "name" (.pyStr "") with
            | .error m => .error m
            | .ok namev =>
              let repo_full : PyVal :=
                if pyTruthy rfn then rfn
                else .pyStr (stripSlashes (pyStrOf nsv ++ "/" ++
                  pyStrOf namev))
              match pyGet repo "namespace" .pyNone with
              | .error m => .error m
              | .ok nsv2 =>
                match pyOrVal nsv2 (.pyStr "") with
                | .pyStr s =>
                  match pyGet repo "region" (.pyStr "") with
                  | .error m => .error m
                  | .ok region =>
                    .ok { repoFullName := repo_full,
                          nameSpace := pyStrip s, tag := tagv,
                          digest := digest, region := region,
                          pushedAt := pushed_at,
                          rawFallback :=
                            if rawText = "" then none
                            else
                              match loads with
                              | .ok _ => none
                              | .error _ => some rawText }
                | _ => .error "AttributeError: strip"

/-- The admission decision of the handler's `if`/`elif` chain. -/
inductive Decision where
  | proceed
  | skip (reason : String)
deriving Repr, DecidableEq

/-- Admission filter (src/app.py lines 232-237), first match wins. -/
def admitEvent (cfg : Config) (repo_full tagv : PyVal) (nameSpace : String) :
    Decision :=
  if ¬ pyTruthy repo_full then .skip "empty repo_full"
  else if pyEqStr tagv IGNORE_TAG then .skip ("ignored tag " ++ IGNORE_TAG)
  else if cfg.allowNamespace ≠ "" ∧ nameSpace ≠ cfg.allowNamespace then
    .skip ("namespace not allowed: " ++ nameSpace)
  else .proceed

/-- `deploy_result`: either the skip dict
`\x7b"skipped": True, "reason": r\x7d` or the sync engine's result dict. -/
inductive Deploy where
  | skipped (reason : String)
  | ran (result : SyncOutput)
deriving Repr, DecidableEq

/-- Status headline selection (src/app.py lines 244-251): keyed on
`deploy_result.get("skipped")` and on the first step dict containing a
`"pull"` key. -/
def statusMsg : Deploy → String
  | .skipped _ => "镜像自动构建完成（未触发自动拉取）"
  | .ran r =>
    match r.steps.find? (fun s => (s.lookup "pull").isSome) with
    | some s =>
      if s.lookup "pull" = some "ok" then "镜像自动构建完成、自动拉取成功"
      else "镜像自动构建完成，未自动拉取成功"
    | none => "镜像自动构建完成，未自动拉取成功"

/-- Oracle for the single `requests.post` inside `push_meow`:
either a response (with status, whether the content type is JSON, and a
body rendering) or a raised exception. -/
inductive MeowOracle where
  | respond (status : Nat) (contentTypeJson : Bool) (body : String)
  | raiseExc
deriving Repr

/-- The dict `push_meow` returns; `resp` holds a rendering of the response
data (the JSON/`\x7b"text": ...\x7d` distinction is kept only as a tag). -/
structure MeowReturn where
  http_status : Nat
  resp : Option String
  error : Option String
deriving Repr, DecidableEq

/-- The arguments of the `push_meow(...)` call the handler issues
(the outbound notification, recorded as data). -/
structure NotifyCall where
  nickname : String
  title : String
  msg : String
  url : PyVal
deriving Repr

/-- `push_meow` (src/app.py lines 51-66): total, converts any transport
exception into `\x7b"http_status": 0, "error": ...\x7d`. -/
def push_meow (_call : NotifyCall) (o : MeowOracle) : MeowReturn :=
  match o with
  | .respond st isJson body =>
    { http_status := st,
      resp := some (if isJson then body else "text: " ++ body),
      error := none }
  | .raiseExc =>
    { http_status := 0, resp := none,
      error := some "push_meow exception, see logs" }

/-- A fault escaping the webhook handler: an explicit
`HTTPException(status_code, detail)` or any other Python exception
(which FastAPI surfaces as HTTP 500). -/
inductive HandlerFault where
  | httpEx (statusCode : Nat) (detail : String)
  | pyExc (msg : String)
deriving Repr, DecidableEq

/-- The handler's successful outcome: the HTTP 200 `JSONResponse` content
(src/app.py lines 266-274) together with the observable effects — the
outbound notification call and the runtime calls issued. -/
structure HandlerOut where
  status_code : Nat
  ok : Bool
  meow_result : MeowReturn
  deploy : Deploy
  user_agent : Option String
  notifyCall : Option NotifyCall
  dockerCalls : List RuntimeCall
deriving Repr

/-- Message assembly, notification and response construction
(src/app.py lines 243-274), shared by the skip and the sync branches. -/
def respondWith (cfg : Config) (ev : PushEvent) (userAgent : Option String)
    (meow : MeowOracle) (deploy : Deploy) (dcalls : List RuntimeCall) :
    Except HandlerFault HandlerOut :=
  let status := statusMsg deploy
  let msgLines : List (Option String) :=
    [ if pyTruthy ev.repoFullName then
        some ("仓库：" ++ pyStrOf ev.repoFullName) else none,
      if pyTruthy ev.region then some ("区域：" ++ pyStrOf ev.region) else none,
      if pyTruthy ev.tag then some ("Tag：" ++ pyStrOf ev.tag) else none,
      if pyTruthy ev.digest then
        some ("Digest：" ++ pyStrOf ev.digest) else none,
      if pyTruthy ev.pushedAt then
        some ("时间：" ++ pyStrOf ev.pushedAt) else none,
      some ("状态：" ++ status) ]
  let msg := pyOr (String.intercalate "\n" (msgLines.filterMap id)) status
  let jumpUrl : PyVal :=
    if cfg.defaultJumpUrl ≠ "" then .pyStr cfg.defaultJumpUrl
    else ev.repoFullName
  let call : NotifyCall :=
    { nickname := cfg.miaoNickname, title := status, msg := msg,
      url := jumpUrl }
  .ok { status_code := 200, ok := true, meow_result := push_meow call meow,
        deploy := deploy, user_agent := userAgent, notifyCall := some call,
        dockerCalls := dcalls }

/-- The webhook handler `acr_payload` (src/app.py lines 202-274).
`secret` is the `?secret=` query parameter, `rawText` the body decoded with
`errors="ignore"`, `loads` the `json.loads` oracle, `b` the docker runtime
oracle and `meow` the notification transport oracle. -/
def acr_payload (cfg : Config) (secret : Option String) (rawText : String)
    (loads : Except Unit PyVal) (b : RuntimeBehavior) (meow : MeowOracle)
    (userAgent : Option String) : Except HandlerFault HandlerOut :=
  if cfg.webhookSecret ≠ "" ∧ secret ≠ some cfg.webhookSecret then
    .error (.httpEx 401 "secret invalid")
  else
    match parseEvent rawText loads with
    | .error m => .error (.pyExc m)
    | .ok ev =>
      match admitEvent cfg ev.repoFullName ev.tag ev.nameSpace with
      | .skip reason => respondWith cfg ev userAgent meow (.skipped reason) []
      | .proceed =>
        -- line 239: LOCAL_IMAGE_NAME or repo_full.split("/")[-1]
        -- (short-circuit: split only runs — and can only fault —
        -- when LOCAL_IMAGE_NAME is empty)
        let linE : Except String String :=
          if cfg.localImageName ≠ "" then .ok cfg.localImageName
          else
            match ev.repoFullName with
            | .pyStr s => .ok (lastSegment s)
            | _ => .error "AttributeError: split"
        match linE with
        | .error m => .error (.pyExc m)
        | .ok lin =>
          -- normalize_tag(tag) (line 86) faults on a non-string tag
          -- before any runtime interaction
          match ev.tag with
          | .pyStr tagS =>
            match docker_login_pull_tag_remove cfg b (pyStrOf ev.repoFullName)
                tagS lin with
            | (.error m, _) => .error (.pyExc m)
            | (.ok r, dcalls) =>
              respondWith cfg ev userAgent meow (.ran r) dcalls
          | _ => .error (.pyExc "AttributeError: lower")

/-! ### Concrete fixtures used by witnesses and counterexamples -/

/-- A configuration with no credentials, no namespace filter, no secret. -/
def cfgBase : Config :=
  { registry := "reg", username := "", password := "",
    allowNamespace := "", localImageName := "", localTag := "latest",
    webhookSecret := "", defaultJumpUrl := "", miaoNickname := "nick" }

/-- `cfgBase` with registry credentials configured. -/
def cfgCreds : Config := { cfgBase with username := "u", password := "p" }

/-- A runtime on which every call succeeds. -/
def runAllOk : RuntimeBehavior :=
  { fromEnvError := none, loginError := none, pullError := none,
    pullId := "sha1", tagError := none, cleanupRmiError := none,
    rmiError := none }

/-! ### Claim theorems -/

/-- Claim C4: admission is a pure function evaluated first-match-wins in
the fixed order: (1) empty `repoFullName` skips with reason
`"empty repo_full"` regardless of the other fields; (2) a tag equal to the
ignored-tag sentinel skips with reason `"ignored tag " ++ IGNORE_TAG`;
(3) a configured non-empty `allowNamespace` different from the event's
namespace skips with reason `"namespace not allowed: " ++ namespace`;
(4) otherwise the event proceeds. -/
theorem admission_first_match_wins (cfg : Config) (tv : PyVal)
    (r t ns : String) :
    (admitEvent cfg (.pyStr "") tv ns = .skip "empty repo_full") ∧
    (r ≠ "" →
      admitEvent cfg (.pyStr r) (.pyStr IGNORE_TAG) ns =
        .skip ("ignored tag " ++ IGNORE_TAG)) ∧
    (r ≠ "" → t ≠ IGNORE_TAG → cfg.allowNamespace ≠ "" →
      ns ≠ cfg.allowNamespace →
      admitEvent cfg (.pyStr r) (.pyStr t) ns =
        .skip ("namespace not allowed: " ++ ns)) ∧
    (r ≠ "" → t ≠ IGNORE_TAG →
      (cfg.allowNamespace = "" ∨ ns = cfg.allowNamespace) →
      admitEvent cfg (.pyStr r) (.pyStr t) ns = .proceed) := by
  refine ⟨?_, ?_, ?_, ?_⟩
  · simp [admitEvent, pyTruthy]
  · intro hr
    simp [admitEvent, pyTruthy, pyEqStr, hr]
  · intro hr ht ha hn
    simp [admitEvent, pyTruthy, pyEqStr, hr, ht, ha, hn]
  · intro hr ht ha
    rcases ha with ha | ha <;>
      simp [admitEvent, pyTruthy, pyEqStr, hr, ht, ha]

/-- Witness for C4: a concrete event with a non-empty repository, a
non-sentinel tag and no namespace filter proceeds. -/
theorem admission_first_match_wins_witness :
    admitEvent cfgBase (.pyStr "ns/app") (.pyStr "v1") "ns" =
      Decision.proceed :=
  (admission_first_match_wins cfgBase (.pyStr "v1") "ns/app" "v1" "ns").2.2.2
    (by decide) (by decide) (Or.inl rfl)

/-- Claim C5: a failed required step halts the sync early and `steps`
records exactly the attempted steps: a login failure (with credentials
configured) leaves exactly one step and only the login call issued; a pull
failure leaves exactly two steps (the login entry, then the failed pull)
and no tag/remove call is issued. -/
theorem sync_halt_on_login_or_pull_failure (cfg : Config)
    (b : RuntimeBehavior) (repo_full tag0 lin : String)
    (hres : pyStrip (pyOr lin (pyOr cfg.localImageName
      (lastSegment repo_full))) ≠ "")
    (henv : b.fromEnvError = none) :
    (∀ e, cfg.username ≠ "" → cfg.password ≠ "" → b.loginError = some e →
      ∃ r, docker_login_pull_tag_remove cfg b repo_full tag0 lin =
          (.ok r, [.login cfg.registry]) ∧
        r.steps = [[("login", "failed: " ++ e)]] ∧
        terminatedEarly r = true) ∧
    (∀ e, (cfg.username = "" ∨ cfg.password = "" ∨ b.loginError = none) →
      b.pullError = some e →
      ∃ r, docker_login_pull_tag_remove cfg b repo_full tag0 lin =
          (.ok r,
           (if cfg.username = "" ∨ cfg.password = "" then []
            else [RuntimeCall.login cfg.registry]) ++
             [.pull (cfg.registry ++ "/" ++ repo_full ++ ":" ++
               normalize_tag tag0)]) ∧
        r.steps = [(if cfg.username = "" ∨ cfg.password = ""
                    then [("login", "skipped")] else [("login", "ok")]),
                   [("pull", "failed: " ++ e)]] ∧
        terminatedEarly r = true) := by
  constructor
  · intro e hu hp hl
    refine ⟨{ steps := [[("login", "failed: " ++ e)]], rc := none,
              remote := none, localRef := none }, ?_, rfl, rfl⟩
    simp [docker_login_pull_tag_remove, hres, henv, hl, hu, hp]
  · intro e hlogin hpull
    by_cases hc : cfg.username = "" ∨ cfg.password = ""
    · refine ⟨{ steps := [[("login", "skipped")],
                          [("pull", "failed: " ++ e)]], rc := none,
                remote := none, localRef := none }, ?_, ?_, rfl⟩
      · simp [docker_login_pull_tag_remove, hres, henv, hc, hpull]
      · simp [hc]
    · have hl : b.loginError = none := by
        rcases hlogin with h | h | h
        · exact absurd (Or.inl h) hc
        · exact absurd (Or.inr h) hc
        · exact h
      refine ⟨{ steps := [[("login", "ok")],
                          [("pull", "failed: " ++ e)]], rc := none,
                remote := none, localRef := none }, ?_, ?_, rfl⟩
      · simp [docker_login_pull_tag_remove, hres, henv, hc, hl, hpull]
      · simp [hc]

/-- Witness for C5: with credentials configured and the runtime refusing
authentication, the result has exactly one (failed) step and the sync
terminated early. -/
theorem sync_halt_on_login_or_pull_failure_witness :
    ∃ r, docker_login_pull_tag_remove cfgCreds
        { runAllOk with loginError := some "bad credentials" }
        "ns/app" "v1" "" =
        (.ok r, [.login cfgCreds.registry]) ∧
      r.steps = [[("login", "failed: bad credentials")]] ∧
      terminatedEarly r = true :=
  (sync_halt_on_login_or_pull_failure cfgCreds
    { runAllOk with loginError := some "bad credentials" }
    "ns/app" "v1" "" (by decide) rfl).1
    "bad credentials" (by decide) (by decide) rfl

/-- Claim C10: when the explicit override, the configured
`LOCAL_IMAGE_NAME` and the last `/`-segment of `repo_full` are all empty or
whitespace, the sync returns immediately with a single error step and
`rc = -1`, issuing no runtime call at all (for every runtime behavior). -/
theorem sync_empty_local_image_short_circuit (cfg : Config)
    (b : RuntimeBehavior) (repo_full tag0 lin : String)
    (h1 : pyStrip lin = "") (h2 : pyStrip cfg.localImageName = "")
    (h3 : pyStrip (lastSegment repo_full) = "") :
    docker_login_pull_tag_remove cfg b repo_full tag0 lin =
      (.ok { steps := [[("error", "local image name resolved empty")]],
             rc := some (-1), remote := none, localRef := none }, []) := by
  have hloc : pyStrip (pyOr lin (pyOr cfg.localImageName
      (lastSegment repo_full))) = "" := by
    by_cases hl : lin = ""
    · by_cases hc : cfg.localImageName = ""
      · simpa [pyOr, hl, hc] using h3
      · simpa [pyOr, hl, hc] using h2
    · simpa [pyOr, hl] using h1
  simp [docker_login_pull_tag_remove, hloc]

/-- Witness for C10: empty override, empty configured name and an empty
repository name short-circuit with the error dict and `rc = -1`. -/
theorem sync_empty_local_image_short_circuit_witness :
    docker_login_pull_tag_remove cfgBase runAllOk "" "v1" "  " =
      (.ok { steps := [[("error", "local image name resolved empty")]],
             rc := some (-1), remote := none, localRef := none }, []) :=
  sync_empty_local_image_short_circuit cfgBase runAllOk "" "v1" "  "
    (by decide) (by decide) (by decide)

/-- Claim C6: when the tag step fails after a successful pull, the engine
issues a best-effort removal of the remote-named local reference (the last
runtime call) and halts early; and the returned output — result dict and
calls alike — is identical whatever the outcome of that cleanup removal,
because `except Exception: pass` discards it. -/
theorem sync_tag_failure_cleanup (cfg : Config) (b : RuntimeBehavior)
    (repo_full tag0 lin : String)
    (hres : pyStrip (pyOr lin (pyOr cfg.localImageName
      (lastSegment repo_full))) ≠ "")
    (henv : b.fromEnvError = none)
    (hlogin : cfg.username = "" ∨ cfg.password = "" ∨ b.loginError = none)
    (hpull : b.pullError = none) (e : String) (htag : b.tagError = some e) :
    (∃ r calls,
      docker_login_pull_tag_remove cfg b repo_full tag0 lin =
        (.ok r, calls) ∧
      terminatedEarly r = true ∧
      calls.getLast? = some (.removeImage (cfg.registry ++ "/" ++
        repo_full ++ ":" ++ normalize_tag tag0)) ∧
      r.steps.getLast? = some [("tag", "failed: " ++ e)]) ∧
    (∀ c₁ c₂,
      docker_login_pull_tag_remove cfg { b with cleanupRmiError := c₁ }
          repo_full tag0 lin =
        docker_login_pull_tag_remove cfg { b with cleanupRmiError := c₂ }
          repo_full tag0 lin) := by
  constructor
  · by_cases hc : cfg.username = "" ∨ cfg.password = ""
    · refine ⟨{ steps := [[("login", "skipped")],
                          [("pull", "ok"), ("id", b.pullId)],
                          [("tag", "failed: " ++ e)]], rc := none,
                remote := none, localRef := none },
              [.pull (cfg.registry ++ "/" ++ repo_full ++ ":" ++
                 normalize_tag tag0),
               .tagImage (pyStrip (pyOr lin (pyOr cfg.localImageName
                 (lastSegment repo_full)))) cfg.localTag,
               .removeImage (cfg.registry ++ "/" ++ repo_full ++ ":" ++
                 normalize_tag tag0)], ?_, rfl, rfl, rfl⟩
      simp [docker_login_pull_tag_remove, hres, henv, hc, hpull, htag]
    · have hl : b.loginError = none := by
        rcases hlogin with h | h | h
        · exact absurd (Or.inl h) hc
        · exact absurd (Or.inr h) hc
        · exact h
      refine ⟨{ steps := [[("login", "ok")],
                          [("pull", "ok"), ("id", b.pullId)],
                          [("tag", "failed: " ++ e)]], rc := none,
                remote := none, localRef := none },
              [.login cfg.registry,
               .pull (cfg.registry ++ "/" ++ repo_full ++ ":" ++
                 normalize_tag tag0),
               .tagImage (pyStrip (pyOr lin (pyOr cfg.localImageName
                 (lastSegment repo_full)))) cfg.localTag,
               .removeImage (cfg.registry ++ "/" ++ repo_full ++ ":" ++
                 normalize_tag tag0)], ?_, rfl, rfl, rfl⟩
      simp [docker_login_pull_tag_remove, hres, henv, hc, hl, hpull, htag]
  · intro c₁ c₂
    cases b
    rfl

/-- Witness for C6: with the runtime failing the tag step, the engine's
last call is the best-effort removal of the remote reference, the run
terminated early, and the output does not depend on the cleanup outcome. -/
theorem sync_tag_failure_cleanup_witness :
    (∃ r calls,
      docker_login_pull_tag_remove cfgBase
          { runAllOk with tagError := some "conflict" } "ns/app" "v1" "" =
        (.ok r, calls) ∧
      terminatedEarly r = true ∧
      calls.getLast? = some (.removeImage "reg/ns/app:v1") ∧
      r.steps.getLast? = some [("tag", "failed: conflict")]) ∧
    (∀ c₁ c₂,
      docker_login_pull_tag_remove cfgBase
          { runAllOk with tagError := some "conflict", cleanupRmiError := c₁ }
          "ns/app" "v1" "" =
        docker_login_pull_tag_remove cfgBase
          { runAllOk with tagError := some "conflict", cleanupRmiError := c₂ }
          "ns/app" "v1" "") :=
  sync_tag_failure_cleanup cfgBase
    { runAllOk with tagError := some "conflict" } "ns/app" "v1" ""
    (by decide) rfl (Or.inl rfl) rfl "conflict" rfl

/-- Claim C7: a failure of the final remove step is recorded as a failed
step but the sync is not marked terminated-early: whenever tag succeeded,
the result carries the `remote` and `local` references regardless of the
remove outcome, and the last step records the remove outcome. -/
theorem sync_remove_failure_nonfatal (cfg : Config) (b : RuntimeBehavior)
    (repo_full tag0 lin : String)
    (hres : pyStrip (pyOr lin (pyOr cfg.localImageName
      (lastSegment repo_full))) ≠ "")
    (henv : b.fromEnvError = none)
    (hlogin : cfg.username = "" ∨ cfg.password = "" ∨ b.loginError = none)
    (hpull : b.pullError = none) (htag : b.tagError = none) :
    ∃ r calls,
      docker_login_pull_tag_remove cfg b repo_full tag0 lin =
        (.ok r, calls) ∧
      r.remote = some (cfg.registry ++ "/" ++ repo_full ++ ":" ++
        normalize_tag tag0) ∧
      r.localRef = some (pyStrip (pyOr lin (pyOr cfg.localImageName
        (lastSegment repo_full))) ++ ":" ++ cfg.localTag) ∧
      terminatedEarly r = false ∧
      (∀ e, b.rmiError = some e →
        r.steps.getLast? = some [("rmi", "failed: " ++ e)]) ∧
      (b.rmiError = none → r.steps.getLast? = some [("rmi", "ok")]) := by
  by_cases hc : cfg.username = "" ∨ cfg.password = ""
  · cases hrmi : b.rmiError with
    | none =>
      refine ⟨{ steps := [[("login", "skipped")],
                          [("pull", "ok"), ("id", b.pullId)],
                          [("tag", "ok"), ("local", pyStrip (pyOr lin
                            (pyOr cfg.localImageName (lastSegment
                            repo_full))) ++ ":" ++ cfg.localTag)],
                          [("rmi", "ok")]], rc := none,
                remote := some (cfg.registry ++ "/" ++ repo_full ++ ":" ++
                  normalize_tag tag0),
                localRef := some (pyStrip (pyOr lin (pyOr cfg.localImageName
                  (lastSegment repo_full))) ++ ":" ++ cfg.localTag) },
              [.pull (cfg.registry ++ "/" ++ repo_full ++ ":" ++
                 normalize_tag tag0),
               .tagImage (pyStrip (pyOr lin (pyOr cfg.localImageName
                 (lastSegment repo_full)))) cfg.localTag,
               .removeImage (cfg.registry ++ "/" ++ repo_full ++ ":" ++
                 normalize_tag tag0)], ?_, rfl, rfl, rfl, ?_, ?_⟩
      · simp [docker_login_pull_tag_remove, hres, henv, hc, hpull, htag,
          hrmi]
      · simp
      · intro _
        rfl
    | some e =>
      refine ⟨{ steps := [[("login", "skipped")],
                          [("pull", "ok"), ("id", b.pullId)],
                          [("tag", "ok"), ("local", pyStrip (pyOr lin
                            (pyOr cfg.localImageName (lastSegment
                            repo_full))) ++ ":" ++ cfg.localTag)],
                          [("rmi", "failed: " ++ e)]], rc := none,
                remote := some (cfg.registry ++ "/" ++ repo_full ++ ":" ++
                  normalize_tag tag0),
                localRef := some (pyStrip (pyOr lin (pyOr cfg.localImageName
                  (lastSegment repo_full))) ++ ":" ++ cfg.localTag) },
              [.pull (cfg.registry ++ "/" ++ repo_full ++ ":" ++
                 normalize_tag tag0),
               .tagImage (pyStrip (pyOr lin (pyOr cfg.localImageName
                 (lastSegment repo_full)))) cfg.localTag,
               .removeImage (cfg.registry ++ "/" ++ repo_full ++ ":" ++
                 normalize_tag tag0)], ?_, rfl, rfl, rfl, ?_, ?_⟩
      · simp [docker_login_pull_tag_remove, hres, henv, hc, hpull, htag,
          hrmi]
      · intro e' he'
        cases he'
        rfl
      · intro h0
        exact absurd h0 (by simp)
  · have hlog : b.loginError = none := by
      rcases hlogin with h | h | h
      · exact absurd (Or.inl h) hc
      · exact absurd (Or.inr h) hc
      · exact h
    cases hrmi : b.rmiError with
    | none =>
      refine ⟨{ steps := [[("login", "ok")],
                          [("pull", "ok"), ("id", b.pullId)],
                          [("tag", "ok"), ("local", pyStrip (pyOr lin
                            (pyOr cfg.localImageName (lastSegment
                            repo_full))) ++ ":" ++ cfg.localTag)],
                          [("rmi", "ok")]], rc := none,
                remote := some (cfg.registry ++ "/" ++ repo_full ++ ":" ++
                  normalize_tag tag0),
                localRef := some (pyStrip (pyOr lin (pyOr cfg.localImageName
                  (lastSegment repo_full))) ++ ":" ++ cfg.localTag) },
              [.login cfg.registry,
               .pull (cfg.registry ++ "/" ++ repo_full ++ ":" ++
                 normalize_tag tag0),
               .tagImage (pyStrip (pyOr lin (pyOr cfg.localImageName
                 (lastSegment repo_full)))) cfg.localTag,
               .removeImage (cfg.registry ++ "/" ++ repo_full ++ ":" ++
                 normalize_tag tag0)], ?_, rfl, rfl, rfl, ?_, ?_⟩
      · simp [docker_login_pull_tag_remove, hres, henv, hc, hlog, hpull,
          htag, hrmi]
      · simp
      · intro _
        rfl
    | some e =>
      refine ⟨{ steps := [[("login", "ok")],
                          [("pull", "ok"), ("id", b.pullId)],
                          [("tag", "ok"), ("local", pyStrip (pyOr lin
                            (pyOr cfg.localImageName (lastSegment
                            repo_full))) ++ ":" ++ cfg.localTag)],
                          [("rmi", "failed: " ++ e)]], rc := none,
                remote := some (cfg.registry ++ "/" ++ repo_full ++ ":" ++
                  normalize_tag tag0),
                localRef := some (pyStrip (pyOr lin (pyOr cfg.localImageName
                  (lastSegment repo_full))) ++ ":" ++ cfg.localTag) },
              [.login cfg.registry,
               .pull (cfg.registry ++ "/" ++ repo_full ++ ":" ++
                 normalize_tag tag0),
               .tagImage (pyStrip (pyOr lin (pyOr cfg.localImageName
                 (lastSegment repo_full)))) cfg.localTag,
               .removeImage (cfg.registry ++ "/" ++ repo_full ++ ":" ++
                 normalize_tag tag0)], ?_, rfl, rfl, rfl, ?_, ?_⟩
      · simp [docker_login_pull_tag_remove, hres, henv, hc, hlog, hpull,
          htag, hrmi]
      · intro e' he'
        cases he'
        rfl
      · intro h0
        exact absurd h0 (by simp)

/-- Witness for C7: a failing remove step is recorded, yet `remote` and
`local` are present and the run is not marked terminated-early. -/
theorem sync_remove_failure_nonfatal_witness :
    ∃ r calls,
      docker_login_pull_tag_remove cfgBase
          { runAllOk with rmiError := some "image in use" }
          "ns/app" "v1" "" = (.ok r, calls) ∧
      r.remote = some "reg/ns/app:v1" ∧
      r.localRef = some "app:latest" ∧
      terminatedEarly r = false ∧
      (∀ e, ({ runAllOk with rmiError := some "image in use" }
          : RuntimeBehavior).rmiError = some e →
        r.steps.getLast? = some [("rmi", "failed: " ++ e)]) ∧
      (({ runAllOk with rmiError := some "image in use" }
          : RuntimeBehavior).rmiError = none →
        r.steps.getLast? = some [("rmi", "ok")]) :=
  sync_remove_failure_nonfatal cfgBase
    { runAllOk with rmiError := some "image in use" } "ns/app" "v1" ""
    (by decide) rfl (Or.inl rfl) rfl rfl

/-- The resolved local image name of src/app.py line 87:
`(local_image_name or LOCAL_IMAGE_NAME or repo_full.split("/")[-1]).strip()`. -/
def resolvedLocalImage (cfg : Config) (repo_full lin : String) : String :=
  pyStrip (pyOr lin (pyOr cfg.localImageName (lastSegment repo_full)))

/-- Counterexample to claim C1: the claim says no runtime-interaction
failure ever escapes and that the caller always receives a complete result
carrying `remote` and `local`.  Both parts fail on the code:
`docker.from_env()` (line 95) sits outside every `try`, so its failure
escapes as an exception; and a login failure returns the dict
`\x7b"steps": [...]\x7d` without the `remote`/`local` keys. -/
theorem sync_escape_and_incomplete_result :
    (docker_login_pull_tag_remove cfgCreds
        { runAllOk with fromEnvError := some "docker daemon unreachable" }
        "ns/app" "v1" "").1 = .error "docker daemon unreachable" ∧
    ∃ r, (docker_login_pull_tag_remove cfgCreds
        { runAllOk with loginError := some "unauthorized" }
        "ns/app" "v1" "").1 = .ok r ∧
      r.remote = none ∧ r.localRef = none ∧
      r.steps = [[("login", "failed: unauthorized")]] :=
  ⟨rfl, ⟨{ steps := [[("login", "failed: unauthorized")]], rc := none,
           remote := none, localRef := none }, rfl, rfl, rfl, rfl⟩⟩

/-- Claim C1 (amended): provided the docker client construction succeeds,
the sync never escapes with an exception and every `APIError` failure of
login, pull, tag or remove is recorded as a failed step carrying the
runtime's explanation; the returned dict carries the `remote` and `local`
references exactly when the image name resolved non-empty and login, pull
and tag all succeeded. -/
theorem sync_failures_recorded_when_client_ok (cfg : Config)
    (b : RuntimeBehavior) (repo_full tag0 lin : String)
    (henv : b.fromEnvError = none) :
    ∃ r, (docker_login_pull_tag_remove cfg b repo_full tag0 lin).1 =
        .ok r ∧
      ((r.remote.isSome ∧ r.localRef.isSome) ↔
        (resolvedLocalImage cfg repo_full lin ≠ "" ∧
         (cfg.username = "" ∨ cfg.password = "" ∨ b.loginError = none) ∧
         b.pullError = none ∧ b.tagError = none)) ∧
      (∀ e, resolvedLocalImage cfg repo_full lin ≠ "" →
        cfg.username ≠ "" → cfg.password ≠ "" → b.loginError = some e →
        [("login", "failed: " ++ e)] ∈ r.steps) ∧
      (∀ e, resolvedLocalImage cfg repo_full lin ≠ "" →
        (cfg.username = "" ∨ cfg.password = "" ∨ b.loginError = none) →
        b.pullError = some e → [("pull", "failed: " ++ e)] ∈ r.steps) ∧
      (∀ e, resolvedLocalImage cfg repo_full lin ≠ "" →
        (cfg.username = "" ∨ cfg.password = "" ∨ b.loginError = none) →
        b.pullError = none → b.tagError = some e →
        [("tag", "failed: " ++ e)] ∈ r.steps) ∧
      (∀ e, resolvedLocalImage cfg repo_full lin ≠ "" →
        (cfg.username = "" ∨ cfg.password = "" ∨ b.loginError = none) →
        b.pullError = none → b.tagError = none → b.rmiError = some e →
        [("rmi", "failed: " ++ e)] ∈ r.steps) := by
  by_cases hres : resolvedLocalImage cfg repo_full lin = ""
  · refine ⟨{ steps := [[("error", "local image name resolved empty")]],
              rc := some (-1), remote := none, localRef := none },
            ?_, ?_, ?_, ?_, ?_, ?_⟩ <;>
      simp_all [docker_login_pull_tag_remove, resolvedLocalImage, henv] <;>
        (try (rcases hc with hc | hc <;> simp_all))
  · have hres2 : pyStrip (pyOr lin (pyOr cfg.localImageName
        (lastSegment repo_full))) ≠ "" := hres
    by_cases hc : cfg.username = "" ∨ cfg.password = ""
    · cases hpull : b.pullError with
      | some e0 =>
        refine ⟨{ steps := [[("login", "skipped")],
                            [("pull", "failed: " ++ e0)]], rc := none,
                  remote := none, localRef := none }, ?_, ?_, ?_, ?_, ?_, ?_⟩ <;>
          simp_all [docker_login_pull_tag_remove, resolvedLocalImage, henv] <;>
        (try (rcases hc with hc | hc <;> simp_all))
      | none =>
        cases htag : b.tagError with
        | some e0 =>
          refine ⟨{ steps := [[("login", "skipped")],
                              [("pull", "ok"), ("id", b.pullId)],
                              [("tag", "failed: " ++ e0)]], rc := none,
                    remote := none, localRef := none }, ?_, ?_, ?_, ?_, ?_, ?_⟩ <;>
            simp_all [docker_login_pull_tag_remove, resolvedLocalImage, henv] <;>
        (try (rcases hc with hc | hc <;> simp_all))
        | none =>
          cases hrmi : b.rmiError with
          | some e0 =>
            refine ⟨{ steps := [[("login", "skipped")],
                                [("pull", "ok"), ("id", b.pullId)],
                                [("tag", "ok"), ("local",
                                  resolvedLocalImage cfg repo_full lin ++
                                  ":" ++ cfg.localTag)],
                                [("rmi", "failed: " ++ e0)]], rc := none,
                      remote := some (cfg.registry ++ "/" ++ repo_full ++
                        ":" ++ normalize_tag tag0),
                      localRef := some (resolvedLocalImage cfg repo_full lin
                        ++ ":" ++ cfg.localTag) }, ?_, ?_, ?_, ?_, ?_, ?_⟩ <;>
              simp_all [docker_login_pull_tag_remove, resolvedLocalImage, henv] <;>
        (try (rcases hc with hc | hc <;> simp_all))
          | none =>
            refine ⟨{ steps := [[("login", "skipped")],
                                [("pull", "ok"), ("id", b.pullId)],
                                [("tag", "ok"), ("local",
                                  resolvedLocalImage cfg repo_full lin ++
                                  ":" ++ cfg.localTag)],
                                [("rmi", "ok")]], rc := none,
                      remote := some (cfg.registry ++ "/" ++ repo_full ++
                        ":" ++ normalize_tag tag0),
                      localRef := some (resolvedLocalImage cfg repo_full lin
                        ++ ":" ++ cfg.localTag) }, ?_, ?_, ?_, ?_, ?_, ?_⟩ <;>
              simp_all [docker_login_pull_tag_remove, resolvedLocalImage, henv] <;>
        (try (rcases hc with hc | hc <;> simp_all))
    · cases hl : b.loginError with
      | some e0 =>
        refine ⟨{ steps := [[("login", "failed: " ++ e0)]], rc := none,
                  remote := none, localRef := none }, ?_, ?_, ?_, ?_, ?_, ?_⟩ <;>
          simp_all [docker_login_pull_tag_remove, resolvedLocalImage, henv] <;>
        (try (rcases hc with hc | hc <;> simp_all))
      | none =>
        cases hpull : b.pullError with
        | some e0 =>
          refine ⟨{ steps := [[("login", "ok")],
                              [("pull", "failed: " ++ e0)]], rc := none,
                    remote := none, localRef := none }, ?_, ?_, ?_, ?_, ?_, ?_⟩ <;>
            simp_all [docker_login_pull_tag_remove, resolvedLocalImage, henv] <;>
        (try (rcases hc with hc | hc <;> simp_all))
        | none =>
          cases htag : b.tagError with
          | some e0 =>
            refine ⟨{ steps := [[("login", "ok")],
                                [("pull", "ok"), ("id", b.pullId)],
                                [("tag", "failed: " ++ e0)]], rc := none,
                      remote := none, localRef := none }, ?_, ?_, ?_, ?_, ?_, ?_⟩ <;>
              simp_all [docker_login_pull_tag_remove, resolvedLocalImage, henv] <;>
        (try (rcases hc with hc | hc <;> simp_all))
          | none =>
            cases hrmi : b.rmiError with
            | some e0 =>
              refine ⟨{ steps := [[("login", "ok")],
                                  [("pull", "ok"), ("id", b.pullId)],
                                  [("tag", "ok"), ("local",
                                    resolvedLocalImage cfg repo_full lin ++
                                    ":" ++ cfg.localTag)],
                                  [("rmi", "failed: " ++ e0)]], rc := none,
                        remote := some (cfg.registry ++ "/" ++ repo_full ++
                          ":" ++ normalize_tag tag0),
                        localRef := some (resolvedLocalImage cfg repo_full
                          lin ++ ":" ++ cfg.localTag) }, ?_, ?_, ?_, ?_, ?_, ?_⟩ <;>
                simp_all [docker_login_pull_tag_remove, resolvedLocalImage, henv] <;>
        (try (rcases hc with hc | hc <;> simp_all))
            | none =>
              refine ⟨{ steps := [[("login", "ok")],
                                  [("pull", "ok"), ("id", b.pullId)],
                                  [("tag", "ok"), ("local",
                                    resolvedLocalImage cfg repo_full lin ++
                                    ":" ++ cfg.localTag)],
                                  [("rmi", "ok")]], rc := none,
                        remote := some (cfg.registry ++ "/" ++ repo_full ++
                          ":" ++ normalize_tag tag0),
                        localRef := some (resolvedLocalImage cfg repo_full
                          lin ++ ":" ++ cfg.localTag) }, ?_, ?_, ?_, ?_, ?_, ?_⟩ <;>
                simp_all [docker_login_pull_tag_remove, resolvedLocalImage, henv] <;>
        (try (rcases hc with hc | hc <;> simp_all))

/-- A behavior whose pull call fails with an `APIError`. -/
def runPullFail : RuntimeBehavior :=
  { runAllOk with pullError := some "manifest unknown" }

/-- Witness for C1 (amended): with a failing pull, the result records the
failed step and carries no `remote`/`local`. -/
theorem sync_failures_recorded_when_client_ok_witness :
    ∃ r, (docker_login_pull_tag_remove cfgCreds runPullFail
        "ns/app" "v1" "").1 = .ok r ∧
      ((r.remote.isSome ∧ r.localRef.isSome) ↔
        (resolvedLocalImage cfgCreds "ns/app" "" ≠ "" ∧
         (cfgCreds.username = "" ∨ cfgCreds.password = "" ∨
           runPullFail.loginError = none) ∧
         runPullFail.pullError = none ∧ runPullFail.tagError = none)) ∧
      (∀ e, resolvedLocalImage cfgCreds "ns/app" "" ≠ "" →
        cfgCreds.username ≠ "" → cfgCreds.password ≠ "" →
        runPullFail.loginError = some e →
        [("login", "failed: " ++ e)] ∈ r.steps) ∧
      (∀ e, resolvedLocalImage cfgCreds "ns/app" "" ≠ "" →
        (cfgCreds.username = "" ∨ cfgCreds.password = "" ∨
          runPullFail.loginError = none) →
        runPullFail.pullError = some e →
        [("pull", "failed: " ++ e)] ∈ r.steps) ∧
      (∀ e, resolvedLocalImage cfgCreds "ns/app" "" ≠ "" →
        (cfgCreds.username = "" ∨ cfgCreds.password = "" ∨
          runPullFail.loginError = none) →
        runPullFail.pullError = none → runPullFail.tagError = some e →
        [("tag", "failed: " ++ e)] ∈ r.steps) ∧
      (∀ e, resolvedLocalImage cfgCreds "ns/app" "" ≠ "" →
        (cfgCreds.username = "" ∨ cfgCreds.password = "" ∨
          runPullFail.loginError = none) →
        runPullFail.pullError = none → runPullFail.tagError = none →
        runPullFail.rmiError = some e →
        [("rmi", "failed: " ++ e)] ∈ r.steps) :=
  sync_failures_recorded_when_client_ok cfgCreds runPullFail
    "ns/app" "v1" "" rfl

/-- No failure detail `"failed: " ++ e` ever reads `"ok"`. -/
theorem failed_prefix_ne_ok (e : String) : "failed: " ++ e ≠ "ok" := by
  intro h
  obtain ⟨l⟩ := e
  have h3 : "failed: ".data ++ l = ("ok" : String).data :=
    congrArg String.data h
  have h2 := congrArg List.length h3
  rw [List.length_append] at h2
  have h4 : ("failed: ".data).length = 8 := rfl
  have h5 : (("ok" : String).data).length = 2 := rfl
  omega

/-- Claim C8: the status headline is keyed solely on admission and the
pull step.  A skipped admission yields the "auto-pull not triggered"
variant; for every result the sync engine can produce, the headline is the
"auto-pull succeeded" variant exactly when the steps contain a pull step
whose outcome is ok, and otherwise it is the "did not succeed" variant. -/
theorem headline_keyed_on_admission_and_pull :
    (∀ reason, statusMsg (.skipped reason) =
      "镜像自动构建完成（未触发自动拉取）") ∧
    (∀ (cfg : Config) (b : RuntimeBehavior) (repo_full tag0 lin : String)
      (r : SyncOutput) (calls : List RuntimeCall),
      docker_login_pull_tag_remove cfg b repo_full tag0 lin =
        (.ok r, calls) →
      ((statusMsg (.ran r) = "镜像自动构建完成、自动拉取成功" ↔
        ∃ s ∈ r.steps, s.lookup "pull" = some "ok") ∧
       (statusMsg (.ran r) = "镜像自动构建完成、自动拉取成功" ∨
        statusMsg (.ran r) = "镜像自动构建完成，未自动拉取成功"))) := by
  constructor
  · intro _
    rfl
  · intro cfg b repo_full tag0 lin r calls h
    by_cases hres : pyStrip (pyOr lin (pyOr cfg.localImageName
        (lastSegment repo_full))) = ""
    · simp [docker_login_pull_tag_remove, hres] at h
      obtain ⟨h1, h2⟩ := h
      subst h1
      simp [statusMsg, List.lookup]
    · cases henv : b.fromEnvError with
      | some m =>
        simp [docker_login_pull_tag_remove, hres, henv] at h
      | none =>
        by_cases hc : cfg.username = "" ∨ cfg.password = ""
        · cases hpull : b.pullError with
          | some e0 =>
            simp [docker_login_pull_tag_remove, hres, henv, hc, hpull] at h
            obtain ⟨h1, h2⟩ := h
            subst h1
            simp [statusMsg, List.lookup, failed_prefix_ne_ok]
          | none =>
            cases htag : b.tagError with
            | some e0 =>
              simp [docker_login_pull_tag_remove, hres, henv, hc, hpull,
                htag] at h
              obtain ⟨h1, h2⟩ := h
              subst h1
              simp [statusMsg, List.lookup]
            | none =>
              cases hrmi : b.rmiError with
              | some e0 =>
                simp [docker_login_pull_tag_remove, hres, henv, hc, hpull,
                  htag, hrmi] at h
                obtain ⟨h1, h2⟩ := h
                subst h1
                simp [statusMsg, List.lookup]
              | none =>
                simp [docker_login_pull_tag_remove, hres, henv, hc, hpull,
                  htag, hrmi] at h
                obtain ⟨h1, h2⟩ := h
                subst h1
                simp [statusMsg, List.lookup]
        · cases hl : b.loginError with
          | some e0 =>
            simp [docker_login_pull_tag_remove, hres, henv, hc, hl] at h
            obtain ⟨h1, h2⟩ := h
            subst h1
            simp [statusMsg, List.lookup]
          | none =>
            cases hpull : b.pullError with
            | some e0 =>
              simp [docker_login_pull_tag_remove, hres, henv, hc, hl,
                hpull] at h
              obtain ⟨h1, h2⟩ := h
              subst h1
              simp [statusMsg, List.lookup, failed_prefix_ne_ok]
            | none =>
              cases htag : b.tagError with
              | some e0 =>
                simp [docker_login_pull_tag_remove, hres, henv, hc, hl,
                  hpull, htag] at h
                obtain ⟨h1, h2⟩ := h
                subst h1
                simp [statusMsg, List.lookup]
              | none =>
                cases hrmi : b.rmiError with
                | some e0 =>
                  simp [docker_login_pull_tag_remove, hres, henv, hc, hl,
                    hpull, htag, hrmi] at h
                  obtain ⟨h1, h2⟩ := h
                  subst h1
                  simp [statusMsg, List.lookup]
                | none =>
                  simp [docker_login_pull_tag_remove, hres, henv, hc, hl,
                    hpull, htag, hrmi] at h
                  obtain ⟨h1, h2⟩ := h
                  subst h1
                  simp [statusMsg, List.lookup]

/-- The sync engine output for an all-success run on `ns/app:v1` with an
auto-derived local image name. -/
def rAllOkOut : SyncOutput :=
  { steps := [[("login", "skipped")], [("pull", "ok"), ("id", "sha1")],
              [("tag", "ok"), ("local", "app:latest")], [("rmi", "ok")]],
    rc := none, remote := some "reg/ns/app:v1",
    localRef := some "app:latest" }

/-- Witness for C8: an all-success run's headline is the success variant,
and its steps do contain an ok pull step. -/
theorem headline_keyed_on_admission_and_pull_witness :
    ((statusMsg (.ran rAllOkOut) = "镜像自动构建完成、自动拉取成功" ↔
      ∃ s ∈ rAllOkOut.steps, s.lookup "pull" = some "ok") ∧
     (statusMsg (.ran rAllOkOut) = "镜像自动构建完成、自动拉取成功" ∨
      statusMsg (.ran rAllOkOut) = "镜像自动构建完成，未自动拉取成功")) :=
  headline_keyed_on_admission_and_pull.2 cfgBase runAllOk "ns/app" "v1" ""
    rAllOkOut
    [.pull "reg/ns/app:v1", .tagImage "app" "latest",
     .removeImage "reg/ns/app:v1"] rfl

/-- Counterexample to claim C2: the empty body is not valid JSON, yet the
parsed event has `tag = "latest"` (line 224 `or "latest"`), not an empty
tag, and records no fallback text at all (line 216 skips `json.loads` and
leaves `data = \x7b\x7d`), contradicting "all structured fields empty" and
"rawFallback holds the body". -/
theorem parse_empty_body_not_all_empty :
    ∃ ev, parseEvent "" (Except.error ()) = .ok ev ∧
      ev.tag = .pyStr "latest" ∧ ev.tag ≠ .pyStr "" ∧
      ev.rawFallback = none ∧ ev.rawFallback ≠ some "" := by
  refine ⟨{ repoFullName := .pyStr "", nameSpace := "",
            tag := .pyStr "latest", digest := .pyStr "",
            region := .pyStr "", pushedAt := .pyStr "",
            rawFallback := none }, rfl, rfl, ?_, rfl, ?_⟩
  · simp
  · simp

/-- Claim C2 (amended): for every nonempty raw body on which `json.loads`
fails, parsing never raises: it yields the event whose `rawFallback` holds
the decoded body text and whose structured fields are all empty — except
`tag`, which is `"latest"` (the empty-tag fallback applied on line 224);
the derived image name (last `/`-segment of the empty repository name) is
also empty.  (The empty body additionally records no fallback, see the
counterexample.) -/
theorem parse_nonjson_body (rawText : String) (h : rawText ≠ "") :
    parseEvent rawText (Except.error ()) = .ok
      { repoFullName := .pyStr "", nameSpace := "", tag := .pyStr "latest",
        digest := .pyStr "", region := .pyStr "", pushedAt := .pyStr "",
        rawFallback := some rawText } ∧
    lastSegment "" = "" := by
  constructor
  · simp only [parseEvent]
    rw [if_neg h, if_neg h]
    rfl
  · rfl

/-- Witness for C2 (amended): the body `"oops"` parses to the fallback
event with `tag = "latest"`. -/
theorem parse_nonjson_body_witness :
    parseEvent "oops" (Except.error ()) = .ok
      { repoFullName := .pyStr "", nameSpace := "", tag := .pyStr "latest",
        digest := .pyStr "", region := .pyStr "", pushedAt := .pyStr "",
        rawFallback := some "oops" } ∧
    lastSegment "" = "" :=
  parse_nonjson_body "oops" (by decide)

/-- Claim C3 is contradicted by the code: with no secret configured the
secret check passes, yet the valid-JSON body `\x7b"push_data": 5\x7d`
makes `push_data.get("tag", "")` (src/app.py line 224) raise
`AttributeError` on the int value, which escapes the handler (HTTP 500),
not the promised HTTP 200 response.  This theorem evaluates the embedded
handler at that failing input. -/
theorem handler_faults_on_nonobject_push_data :
    acr_payload cfgBase none "\x7b\"push_data\": 5\x7d"
      (Except.ok (PyVal.pyDict [("push_data", PyVal.pyInt 5)]))
      runAllOk (MeowOracle.respond 200 true "ok") none =
      .error (.pyExc "AttributeError: get") := rfl

/-- Appending on the right keeps a nonempty string nonempty. -/
theorem append_ne_empty_left (a b : String) (h : a ≠ "") : a ++ b ≠ "" := by
  obtain ⟨la⟩ := a
  obtain ⟨lb⟩ := b
  intro hh
  have h1 : la ++ lb = [] := congrArg String.data hh
  rcases List.append_eq_nil.mp h1 with ⟨h2, h3⟩
  exact h (by rw [h2])

/-- `String.intercalate.go` preserves a nonempty accumulator. -/
theorem intercalate_go_ne_empty (l : List String) (acc s : String)
    (h : acc ≠ "") : String.intercalate.go acc s l ≠ "" := by
  induction l generalizing acc with
  | nil => simpa [String.intercalate.go] using h
  | cons a as ih =>
    simp only [String.intercalate.go]
    exact ih _ (append_ne_empty_left _ _ (append_ne_empty_left _ _ h))

/-- An intercalation starting with a nonempty string is nonempty. -/
theorem intercalate_cons_ne_empty (a : String) (l : List String)
    (s : String) (h : a ≠ "") : String.intercalate s (a :: l) ≠ "" := by
  simpa [String.intercalate] using intercalate_go_ne_empty l a s h

/-- A webhook payload carrying `push_data.tag = t` for repository
`ns/app`. -/
def payloadWithTag (t : String) : PyVal :=
  .pyDict [("push_data", .pyDict [("tag", .pyStr t)]),
           ("repository", .pyDict [("repo_full_name", .pyStr "ns/app")])]

/-- Counterexample to claim C9: for the raw tag `"LASTEST"` the status
body line reads `Tag：LASTEST` — the case-insensitive lastest→latest
correction is not applied before the status body (or admission) observes
the tag; it happens only inside the sync engine, whose pull call uses the
corrected reference `reg/ns/app:latest`. -/
theorem tag_not_normalized_before_status :
    ∃ out, acr_payload cfgBase none "x"
        (Except.ok (payloadWithTag "LASTEST")) runAllOk
        (MeowOracle.respond 200 true "ok") none = .ok out ∧
      out.notifyCall.map NotifyCall.msg =
        some "仓库：ns/app\nTag：LASTEST\n状态：镜像自动构建完成、自动拉取成功" ∧
      out.dockerCalls.head? = some (.pull "reg/ns/app:latest") ∧
      ("LASTEST" : String) ≠ "latest" := by
  refine ⟨_, rfl, rfl, rfl, by decide⟩


/-- The event `parseEvent` produces for `payloadWithTag t` (nonempty
`t`). -/
def eventWithTag (t : String) : PushEvent :=
  { repoFullName := .pyStr "ns/app", nameSpace := "", tag := .pyStr t,
    digest := .pyStr "", region := .pyStr "", pushedAt := .pyStr "",
    rawFallback := none }

/-- The sync engine output for an all-success run pulling
`reg/ns/app:normalize_tag t` with local image `app`. -/
def syncOutWithTag (t : String) : SyncOutput :=
  { steps := [[("login", "skipped")], [("pull", "ok"), ("id", "sha1")],
              [("tag", "ok"), ("local", "app:latest")], [("rmi", "ok")]],
    rc := none, remote := some ("reg/ns/app:" ++ normalize_tag t),
    localRef := some "app:latest" }

/-- The status body the handler assembles for `payloadWithTag t`
(nonempty `t`, all-success run): the tag line carries `t` verbatim. -/
def bodyWithTag (t : String) : String :=
  String.intercalate "\n" ["仓库：ns/app", "Tag：" ++ t,
    "状态：镜像自动构建完成、自动拉取成功"]

/-- The full handler output for `payloadWithTag t` (nonempty, non-sentinel
`t`, all-success run). -/
def outWithTag (t : String) : HandlerOut :=
  { status_code := 200, ok := true,
    meow_result := { http_status := 200, resp := some "ok", error := none },
    deploy := .ran (syncOutWithTag t),
    user_agent := none,
    notifyCall := some
      { nickname := "nick", title := "镜像自动构建完成、自动拉取成功",
        msg := bodyWithTag t, url := .pyStr "ns/app" },
    dockerCalls := [.pull ("reg/ns/app:" ++ normalize_tag t),
      .tagImage "app" "latest",
      .removeImage ("reg/ns/app:" ++ normalize_tag t)] }

/-- Claim C9 (amended): before admission and the status body only the
empty-tag fallback applies (line 224 `or "latest"`): a non-empty string
tag is observed unchanged — case included — by admission (via the parsed
event) and by the status body line; the case-insensitive lastest→latest
correction (`normalize_tag`) is applied only inside the sync engine, whose
pull reference carries the corrected tag. -/
theorem tag_normalization_only_in_sync (t : String) (h1 : t ≠ "")
    (h2 : t ≠ IGNORE_TAG) :
    (parseEvent "x" (Except.ok (payloadWithTag t)) =
      .ok (eventWithTag t) ∧ (eventWithTag t).tag = .pyStr t) ∧
    acr_payload cfgBase none "x" (Except.ok (payloadWithTag t))
        runAllOk (MeowOracle.respond 200 true "ok") none =
      .ok (outWithTag t) ∧
    (outWithTag t).notifyCall.map NotifyCall.msg = some (bodyWithTag t) ∧
    (outWithTag t).dockerCalls.head? =
      some (.pull ("reg/ns/app:" ++ normalize_tag t)) := by
  have hparse : parseEvent "x" (Except.ok (payloadWithTag t)) =
      .ok (eventWithTag t) := by
    simp [parseEvent, payloadWithTag, eventWithTag, pyDictGet, pyGet,
      pyOrVal, pyTruthy, h1, List.lookup, pyStrip, stripChars]
  have hdocker : docker_login_pull_tag_remove cfgBase runAllOk "ns/app" t
      "app" =
      (.ok (syncOutWithTag t),
       [.pull ("reg/ns/app:" ++ normalize_tag t),
        .tagImage "app" "latest",
        .removeImage ("reg/ns/app:" ++ normalize_tag t)]) := by
    simp [docker_login_pull_tag_remove, runAllOk, cfgBase, syncOutWithTag,
      pyOr, pyStrip, stripChars, lastSegment, splitOnChar]
  have hmsgne : String.intercalate "\n" ["仓库：ns/app", "Tag：" ++ t,
      "状态：镜像自动构建完成、自动拉取成功"] ≠ "" :=
    intercalate_cons_ne_empty _ _ _ (by decide)
  have hw : cfgBase.webhookSecret = "" := rfl
  have halw : cfgBase.allowNamespace = "" := rfl
  have hju : cfgBase.defaultJumpUrl = "" := rfl
  have hni : cfgBase.miaoNickname = "nick" := rfl
  have hlin : cfgBase.localImageName = "" := rfl
  have hseg : lastSegment "ns/app" = "app" := rfl
  refine ⟨⟨hparse, rfl⟩, ?_, by rfl, by rfl⟩
  simp [acr_payload, hparse, hdocker, admitEvent, respondWith, statusMsg,
    push_meow, eventWithTag, outWithTag, syncOutWithTag, bodyWithTag,
    pyTruthy, pyEqStr, pyOr, pyStrOf, h1, h2, hmsgne, hw, halw, hju, hni,
    hlin, hseg, List.lookup, List.find?]

/-- Witness for C9 (amended): the non-typo tag `"v2"` is seen verbatim by
the parsed event and the status body, and pulled via `normalize_tag`. -/
theorem tag_normalization_only_in_sync_witness :
    (parseEvent "x" (Except.ok (payloadWithTag "v2")) =
      .ok (eventWithTag "v2") ∧ (eventWithTag "v2").tag = .pyStr "v2") ∧
    acr_payload cfgBase none "x" (Except.ok (payloadWithTag "v2"))
        runAllOk (MeowOracle.respond 200 true "ok") none =
      .ok (outWithTag "v2") ∧
    (outWithTag "v2").notifyCall.map NotifyCall.msg =
      some (bodyWithTag "v2") ∧
    (outWithTag "v2").dockerCalls.head? =
      some (.pull ("reg/ns/app:" ++ normalize_tag "v2")) :=
  tag_normalization_only_in_sync "v2" (by decide) (by decide)
